import Mathlib

/-!
# Around: post ingestion and geo-search service (`service/main.go`)

A shallow embedding of the two request handlers of the service, `handlerPost`
and `handlerSearch`, together with the helpers they call (`saveToGCS`,
`saveToES`, `saveToBigTable`, `containsFilteredWords`).

Modelling conventions.

* Go `string` values are Lean `String`s, compared character by character.  The
  deny-list words are ASCII, so for UTF-8 text containment of characters and
  containment of bytes coincide.
* `float64` is an abstract type `F`; the `strconv` functions and the finiteness
  test used by `encoding/json` are passed in as a record `Float64Ops F`.
* Remote calls (object store, index, wide-column store) are answered by an
  environment record that fixes the outcome of every call; the handlers thread
  the list of remote operations they attempt explicitly.
* A Go `panic` is an explicit outcome of the handler.
* Lines written to the process log (`fmt.Printf`, `fmt.Println`) are left out.
-/

namespace Around

/-! ## Data model (`main.go` lines 26-46) -/

/-- Go struct `Location`. -/
structure Location (F : Type) where
  Lat : F
  Lon : F
  deriving DecidableEq, Repr

/-- Go struct `Post`. -/
structure Post (F : Type) where
  User : String
  Message : String
  Location : Location F
  Url : String
  deriving DecidableEq, Repr

def INDEX : String := "around"
def TYPE : String := "post"
def DISTANCE : String := "200km"
def ES_URL : String := "http://35.245.164.82:9200"
def BUCKET_NAME : String := "post-images-336523"
def PROJECT_ID : String := "around-336523"
def BT_INSTANCE : String := "around-post"

/-! ## Content filter (`main.go` lines 304-317) -/

/-- Scan of `strings.Index`: position of the first occurrence of `substr` in
`s`, counted from `i`, or `-1` when there is none. -/
def indexFrom (substr : List Char) : List Char → Nat → Int
  | [], i => if substr.isPrefixOf [] then (i : Int) else -1
  | c :: s, i => if substr.isPrefixOf (c :: s) then (i : Int) else indexFrom substr s (i + 1)

/-- Go `strings.Index(s, substr)`. -/
def stringsIndex (s substr : String) : Int :=
  indexFrom substr.data s.data 0

/-- Go `strings.Contains(s, substr)`, which is `strings.Index(s, substr) >= 0`. -/
def stringsContains (s substr : String) : Bool :=
  decide (stringsIndex s substr ≥ 0)

/-- The literal slice `filteredWords` of `containsFilteredWords`. -/
def filteredWords : List String := ["fuck", "dick", "ass"]

/-- The `for _, word := range filteredWords` loop: returns `true` at the first
word contained in `s`, `false` when the words are exhausted. -/
def containsFilteredWordsLoop (s : String) : List String → Bool
  | [] => false
  | word :: rest => if stringsContains s word then true else containsFilteredWordsLoop s rest

/-- Go `containsFilteredWords`. -/
def containsFilteredWords (s : String) : Bool :=
  containsFilteredWordsLoop s filteredWords

/-! ## Library interfaces -/

/-- The two error kinds of `strconv.NumError`. -/
inductive NumError where
  | ErrSyntax
  | ErrRange
  deriving DecidableEq, Repr

/-- The operations on `float64` the handlers use. -/
structure Float64Ops (F : Type) where
  /-- The value `0`. -/
  zero : F
  /-- Go `strconv.ParseFloat(s, 64)`: the value and the error (`none` is `nil`). -/
  ParseFloat : String → F × Option NumError
  /-- Go `strconv.FormatFloat(f, 'f', -1, 64)`. -/
  FormatFloat : F → String
  /-- NaN or an infinity: the values `encoding/json` refuses to encode. -/
  IsNaNOrInf : F → Bool

/-- Go `url.Values.Get` and `Request.FormValue`: the first value stored under
`key`, or the empty string when there is none. -/
def Get (v : List (String × String)) (key : String) : String :=
  match v.lookup key with
  | some x => x
  | none => ""

/-- A Go slice is `nil` (`none`) or holds elements. -/
abbrev Slice (α : Type) := Option (List α)

/-- Go `append(s, a)`. -/
def goAppend {α : Type} : Slice α → α → Slice α
  | none, a => some [a]
  | some l, a => some (l ++ [a])

/-- The elements of a slice, in order. -/
def Slice.elems {α : Type} : Slice α → List α
  | none => []
  | some l => l

/-- JSON values. -/
inductive JSON (F : Type) where
  | null
  | string (s : String)
  | number (f : F)
  | array (elems : List (JSON F))
  | object (members : List (String × JSON F))

/-- The encoding of a `Location` by `encoding/json`: an object with members
`lat` and `lon`; a NaN or infinite number is an error (`none`). -/
def marshalLocation {F : Type} (fl : Float64Ops F) (l : Location F) : Option (JSON F) :=
  if fl.IsNaNOrInf l.Lat || fl.IsNaNOrInf l.Lon then none
  else some (.object [("lat", .number l.Lat), ("lon", .number l.Lon)])

/-- The encoding of a `Post` by `encoding/json`, following the struct tags. -/
def marshalPost {F : Type} (fl : Float64Ops F) (p : Post F) : Option (JSON F) :=
  match marshalLocation fl p.Location with
  | none => none
  | some loc =>
    some (.object [("user", .string p.User), ("message", .string p.Message),
      ("location", loc), ("url", .string p.Url)])

/-- The encodings of the elements of a slice, failing at the first error. -/
def marshalElems {F : Type} (fl : Float64Ops F) : List (Post F) → Option (List (JSON F))
  | [] => some []
  | p :: rest =>
    match marshalPost fl p with
    | none => none
    | some j =>
      match marshalElems fl rest with
      | none => none
      | some js => some (j :: js)

/-- Go `json.Marshal(ps)` for `ps []Post`: a nil slice encodes as the JSON value
`null`, any other slice as the array of the encodings of its elements. -/
def jsonMarshal {F : Type} (fl : Float64Ops F) : Slice (Post F) → Option (JSON F)
  | none => some .null
  | some ps =>
    match marshalElems fl ps with
    | none => none
    | some js => some (.array js)

/-- A piece written to a response body. -/
inductive Chunk (F : Type) where
  | text (s : String)
  | json (j : JSON F)

/-- Go `http.ResponseWriter`: the header map, the status committed by the first
`WriteHeader` or `Write` (`none` while nothing has been written), and the body
written so far. -/
structure ResponseWriter (F : Type) where
  header : List (String × String)
  status : Option Nat
  body : List (Chunk F)

/-- A fresh response. -/
def ResponseWriter.new (F : Type) : ResponseWriter F :=
  { header := [], status := none, body := [] }

/-- Go `w.Header().Del(key)`. -/
def HeaderDel {F : Type} (w : ResponseWriter F) (key : String) : ResponseWriter F :=
  { w with header := w.header.filter (fun e => e.1 != key) }

/-- Go `w.Header().Set(key, value)`. -/
def HeaderSet {F : Type} (w : ResponseWriter F) (key value : String) : ResponseWriter F :=
  { w with header := (HeaderDel w key).header ++ [(key, value)] }

/-- Go `w.WriteHeader(code)`: commits the status once; a later call is
superfluous and changes nothing. -/
def WriteHeader {F : Type} (w : ResponseWriter F) (code : Nat) : ResponseWriter F :=
  match w.status with
  | none => { w with status := some code }
  | some _ => w

def StatusOK : Nat := 200
def StatusInternalServerError : Nat := 500

/-- Go `w.Write(b)`: a first write commits status 200 when no status has been
committed, then the bytes are added to the body. -/
def Write {F : Type} (w : ResponseWriter F) (c : Chunk F) : ResponseWriter F :=
  let w1 := WriteHeader w StatusOK
  { w1 with body := w1.body ++ [c] }

/-- Go `http.Error(w, error, code)`. -/
def httpError {F : Type} (w : ResponseWriter F) (error : String) (code : Nat) :
    ResponseWriter F :=
  let w1 := HeaderDel w "Content-Length"
  let w2 := HeaderSet w1 "Content-Type" "text/plain; charset=utf-8"
  let w3 := HeaderSet w2 "X-Content-Type-Options" "nosniff"
  let w4 := WriteHeader w3 code
  Write w4 (.text (error ++ "\n"))

/-! ## Remote stores -/

/-- The three backends. -/
inductive Store where
  | object
  | geoIndex
  | wideColumn
  deriving DecidableEq, Repr

/-- One cell of a Bigtable mutation: `mut.Set(family, column, ts, value)`. -/
structure Cell where
  family : String
  column : String
  ts : Nat
  value : String
  deriving DecidableEq, Repr

/-- The remote write operations the handlers issue. -/
inductive StoreOp (F : Type) where
  /-- Writing the bytes to `bucket.Object(name)`: `io.Copy(wc, r)`, `wc.Close()`. -/
  | gcsWrite (bucket name : String) (data : List Nat)
  /-- Granting read access: `obj.ACL().Set(ctx, storage.AllUsers, storage.RoleReader)`. -/
  | gcsACLSet (bucket name : String)
  /-- The index request `Index(index).Type(typ).Id(id).BodyJson(p).Refresh(refresh).Do()`. -/
  | esIndex (index typ id : String) (body : Post F) (refresh : Bool)
  /-- The row mutation `tbl.Apply(ctx, rowKey, mut)` on table `table`. -/
  | btApply (table rowKey : String) (mutation : List Cell)
  deriving DecidableEq, Repr

/-- The backend an operation is sent to. -/
def StoreOp.store {F : Type} : StoreOp F → Store
  | .gcsWrite _ _ _ => .object
  | .gcsACLSet _ _ => .object
  | .esIndex _ _ _ _ _ => .geoIndex
  | .btApply _ _ _ => .wideColumn

/-- What the outside world answers during one `handlerPost` request. -/
structure PostEnv where
  /-- The value of `uuid.New()`. -/
  uuid : String
  /-- Whether `storage.NewClient` succeeds. -/
  gcsNewClient : Bool
  /-- Whether `bucket.Attrs` succeeds. -/
  gcsBucketAttrs : Bool
  /-- Whether `io.Copy(wc, r)` succeeds. -/
  gcsCopy : Bool
  /-- Whether `wc.Close()` succeeds. -/
  gcsClose : Bool
  /-- Whether `obj.ACL().Set` succeeds. -/
  gcsACLSet : Bool
  /-- The `MediaLink` of `obj.Attrs(ctx)`, or `none` when that call fails. -/
  gcsObjAttrs : Option String
  /-- Whether `elastic.NewClient` succeeds. -/
  esNewClient : Bool
  /-- Whether the index request succeeds. -/
  esIndexDo : Bool
  /-- Whether `bigtable.NewClient` succeeds. -/
  btNewClient : Bool
  /-- The value of `bigtable.Now()`. -/
  btNow : Nat
  /-- Whether `tbl.Apply` succeeds. -/
  btApply : Bool
  deriving DecidableEq, Repr

/-- How `saveToGCS` ends: with the attributes' `MediaLink`, with an error
value, or in a panic. -/
inductive GCSResult where
  | ok (mediaLink : String)
  | err
  | panic
  deriving DecidableEq, Repr

/-- Go `saveToGCS` (lines 162-195): the operations issued and the result. When
`obj.Attrs` fails, `attrs` is nil and the `Printf` of `attrs.MediaLink`
panics. -/
def saveToGCS {F : Type} (env : PostEnv) (r : List Nat) (bucketName name : String) :
    List (StoreOp F) × GCSResult :=
  if !env.gcsNewClient then ([], .err)
  else if !env.gcsBucketAttrs then ([], .err)
  else if !env.gcsCopy then ([.gcsWrite bucketName name r], .err)
  else if !env.gcsClose then ([.gcsWrite bucketName name r], .err)
  else if !env.gcsACLSet then ([.gcsWrite bucketName name r, .gcsACLSet bucketName name], .err)
  else
    match env.gcsObjAttrs with
    | none => ([.gcsWrite bucketName name r, .gcsACLSet bucketName name], .panic)
    | some link => ([.gcsWrite bucketName name r, .gcsACLSet bucketName name], .ok link)

/-- The mutation built by `saveToBigTable` (lines 207-213). -/
def btMutation {F : Type} (fl : Float64Ops F) (p : Post F) (t : Nat) : List Cell :=
  [ { family := "post", column := "user", ts := t, value := p.User },
    { family := "post", column := "message", ts := t, value := p.Message },
    { family := "location", column := "lat", ts := t, value := fl.FormatFloat p.Location.Lat },
    { family := "location", column := "lon", ts := t, value := fl.FormatFloat p.Location.Lon } ]

/-- Go `saveToBigTable` (lines 197-222): the operations issued, and `false`
when it panics. -/
def saveToBigTable {F : Type} (fl : Float64Ops F) (env : PostEnv) (p : Post F) (id : String) :
    List (StoreOp F) × Bool :=
  if !env.btNewClient then ([], false)
  else
    let t := env.btNow
    let mutation := btMutation fl p t
    if !env.btApply then ([.btApply "post" id mutation], false)
    else ([.btApply "post" id mutation], true)

/-- Go `saveToES` (lines 224-244): the operations issued, and `false` when it
panics. -/
def saveToES {F : Type} (env : PostEnv) (p : Post F) (id : String) : List (StoreOp F) × Bool :=
  if !env.esNewClient then ([], false)
  else if !env.esIndexDo then ([.esIndex INDEX TYPE id p true], false)
  else ([.esIndex INDEX TYPE id p true], true)

/-! ## Ingestion (`handlerPost`, lines 106-160) -/

/-- The parts of a `POST /post` request the handler reads: the `username` claim
of the validated token (the type assertions of lines 112-113 are taken to
succeed), the form values, and the `image` file when present. -/
structure PostRequest where
  username : String
  form : List (String × String)
  image : Option (List Nat)
  deriving DecidableEq, Repr

/-- What one run of `handlerPost` leaves behind: the response, the final value
of the local post `p`, the remote operations issued in order, and whether the
handler panicked. -/
structure PostRun (F : Type) where
  w : ResponseWriter F
  p : Post F
  ops : List (StoreOp F)
  panicked : Bool

/-- The post `p` that `handlerPost` builds from the token and the form values
(lines 119-129); the parse errors are dropped (`lat, _ := ...`). -/
def formPost {F : Type} (fl : Float64Ops F) (r : PostRequest) : Post F :=
  let username := r.username
  let lat := (fl.ParseFloat (Get r.form "lat")).1
  let lon := (fl.ParseFloat (Get r.form "lon")).1
  { User := username, Message := Get r.form "message",
    Location := { Lat := lat, Lon := lon }, Url := "" }

/-- Go `handlerPost`. -/
def handlerPost {F : Type} (fl : Float64Ops F) (r : PostRequest) (env : PostEnv) : PostRun F :=
  let w0 := HeaderSet (ResponseWriter.new F) "Content-Type" "application/json"
  let w1 := HeaderSet w0 "Access-Control-Allow-Origin" "*"
  let w2 := HeaderSet w1 "Access-Control-Allow-Headers" "Content-Type, Authorization"
  let p : Post F := formPost fl r
  let w3 := Write w2 (.text ("Post received: " ++ p.Message ++ "\n"))
  let id := env.uuid
  match r.image with
  | none =>
    { w := httpError w3 "GCS is not setup" StatusInternalServerError,
      p := p, ops := [], panicked := true }
  | some file =>
    match saveToGCS env file BUCKET_NAME id with
    | (ops1, .err) =>
      { w := httpError w3 "GCS is not setup" StatusInternalServerError,
        p := p, ops := ops1, panicked := true }
    | (ops1, .panic) => { w := w3, p := p, ops := ops1, panicked := true }
    | (ops1, .ok mediaLink) =>
      let p1 : Post F := { p with Url := mediaLink }
      match saveToES env p1 id with
      | (ops2, false) => { w := w3, p := p1, ops := ops1 ++ ops2, panicked := true }
      | (ops2, true) =>
        match saveToBigTable fl env p1 id with
        | (ops3, false) => { w := w3, p := p1, ops := ops1 ++ ops2 ++ ops3, panicked := true }
        | (ops3, true) => { w := w3, p := p1, ops := ops1 ++ ops2 ++ ops3, panicked := false }

/-! ## Search (`handlerSearch`, lines 246-302) -/

/-- The query `elastic.NewGeoDistanceQuery(name).Distance(..).Lat(..).Lon(..)`. -/
structure GeoDistanceQuery (F : Type) where
  name : String
  distance : String
  lat : F
  lon : F
  deriving DecidableEq, Repr

/-- What the outside world answers during one `handlerSearch` request. -/
structure SearchEnv (F : Type) where
  /-- Whether `elastic.NewClient` succeeds. -/
  esNewClient : Bool
  /-- The posts `searchResult.Each(reflect.TypeOf(typ))` yields for a search of
  the index with the query, or `none` when the search fails. -/
  esSearch : String → GeoDistanceQuery F → Option (List (Post F))

/-- The query `q` that `handlerSearch` builds from the URL parameters (lines
249-266). -/
def geoQuery {F : Type} (fl : Float64Ops F) (query : List (String × String)) :
    GeoDistanceQuery F :=
  let lat := (fl.ParseFloat (Get query "lat")).1
  let lon := (fl.ParseFloat (Get query "lon")).1
  let val := Get query "range"
  let ran := if val != "" then val ++ "km" else DISTANCE
  { name := "location", distance := ran, lat := lat, lon := lon }

/-- The loop of lines 283-291 over the hits, started with the slice `ps`. -/
def filterHits {F : Type} : List (Post F) → Slice (Post F) → Slice (Post F)
  | [], ps => ps
  | p :: rest, ps =>
    if !containsFilteredWords p.Message then filterHits rest (goAppend ps p)
    else filterHits rest ps

/-- What one run of `handlerSearch` leaves behind: the response, the searches
sent to the index, the slice handed to `json.Marshal` when that line is
reached, and whether the handler panicked. -/
structure SearchRun (F : Type) where
  w : ResponseWriter F
  searches : List (String × GeoDistanceQuery F)
  marshalled : Option (Slice (Post F))
  panicked : Bool

/-- Go `handlerSearch`. -/
def handlerSearch {F : Type} (fl : Float64Ops F) (query : List (String × String))
    (env : SearchEnv F) : SearchRun F :=
  let w0 := ResponseWriter.new F
  if !env.esNewClient then
    { w := w0, searches := [], marshalled := none, panicked := true }
  else
    let q := geoQuery fl query
    match env.esSearch INDEX q with
    | none => { w := w0, searches := [(INDEX, q)], marshalled := none, panicked := true }
    | some hits =>
      let ps := filterHits hits none
      match jsonMarshal fl ps with
      | none => { w := w0, searches := [(INDEX, q)], marshalled := some ps, panicked := true }
      | some js =>
        let w1 := HeaderSet w0 "Content-Type" "application/json"
        let w2 := HeaderSet w1 "Access-Control-Allow-Origin" "*"
        { w := Write w2 (.json js), searches := [(INDEX, q)], marshalled := some ps,
          panicked := false }

/-! ## Concrete instances used in the examples -/

/-- A small stand-in for the values of `float64` in the examples: the whole
numbers, the two infinities and NaN. -/
inductive F64 where
  | fin (n : Int)
  | posInf
  | negInf
  | nan
  deriving DecidableEq, Repr

/-- The `float64` operations on the texts and values that occur in the
examples, answered as the Go library answers them: "0", "1" and "NaN" parse
without error; "1e999" and "-1e999" are well-formed but out of range and give
an infinity with `ErrRange`; the empty text and "abc" are not well-formed and
give 0 with `ErrSyntax`. Every other text is answered like "abc"; none occurs
in the examples. -/
def exampleOps : Float64Ops F64 where
  zero := .fin 0
  ParseFloat := fun s =>
    if s = "0" then (.fin 0, none)
    else if s = "1" then (.fin 1, none)
    else if s = "NaN" then (.nan, none)
    else if s = "1e999" then (.posInf, some .ErrRange)
    else if s = "-1e999" then (.negInf, some .ErrRange)
    else (.fin 0, some .ErrSyntax)
  FormatFloat := fun x =>
    match x with
    | .fin n => toString n
    | .posInf => "+Inf"
    | .negInf => "-Inf"
    | .nan => "NaN"
  IsNaNOrInf := fun x =>
    match x with
    | .fin _ => false
    | _ => true

/-- An environment in which every remote call of `handlerPost` succeeds. -/
def envAllOk : PostEnv :=
  { uuid := "id-1", gcsNewClient := true, gcsBucketAttrs := true, gcsCopy := true,
    gcsClose := true, gcsACLSet := true, gcsObjAttrs := some "https://storage/id-1",
    esNewClient := true, esIndexDo := true, btNewClient := true, btNow := 1000,
    btApply := true }

/-- A submission with message "hello" and no image. -/
def reqNoImage : PostRequest :=
  { username := "alice", form := [("message", "hello"), ("lat", "1"), ("lon", "0")],
    image := none }

/-- A submission with message "hello" and an image. -/
def reqWithImage : PostRequest :=
  { username := "alice", form := [("message", "hello"), ("lat", "1"), ("lon", "0")],
    image := some [1, 2, 3] }

/-- A hit whose message contains a deny-listed word. -/
def hitFiltered : Post F64 :=
  { User := "bob", Message := "what the fuck",
    Location := { Lat := .fin 0, Lon := .fin 0 }, Url := "" }

/-- A hit whose message contains no deny-listed word. -/
def hitClean : Post F64 :=
  { User := "alice", Message := "hello", Location := { Lat := .fin 1, Lon := .fin 0 },
    Url := "" }

/-- An index that answers every search with a filtered and a clean hit. -/
def searchEnvTwoHits : SearchEnv F64 :=
  { esNewClient := true, esSearch := fun _ _ => some [hitFiltered, hitClean] }

/-- An index that answers every search with no hit. -/
def searchEnvNoHits : SearchEnv F64 :=
  { esNewClient := true, esSearch := fun _ _ => some [] }

/-- An index that answers every search with one hit, which is filtered. -/
def searchEnvAllFiltered : SearchEnv F64 :=
  { esNewClient := true, esSearch := fun _ _ => some [hitFiltered] }

/-- The parameters of `GET /search?lat=1&lon=0`. -/
def queryNoRange : List (String × String) := [("lat", "1"), ("lon", "0")]

/-- The parameters of `GET /search?lat=1&lon=0&range=200`. -/
def queryRange200 : List (String × String) := [("lat", "1"), ("lon", "0"), ("range", "200")]

/-- The parameters of `GET /search?lat=1&lon=0&range=15`. -/
def queryRange15 : List (String × String) := [("lat", "1"), ("lon", "0"), ("range", "15")]

/-- The parameters of `GET /search?lat=abc&lon=0`. -/
def queryBadLat : List (String × String) := [("lat", "abc"), ("lon", "0")]

/-- A submission with an image whose form has no `lat` value. -/
def reqMissingLat : PostRequest :=
  { username := "alice", form := [("message", "hello"), ("lon", "1")], image := some [1, 2, 3] }

/-- A submission with an image whose `lon` value is not a number. -/
def reqBadLon : PostRequest :=
  { username := "alice", form := [("message", "hello"), ("lat", "1"), ("lon", "abc")],
    image := some [1, 2, 3] }

/-- The parameters of `GET /search?lat=1`. -/
def queryMissingLon : List (String × String) := [("lat", "1")]

/-- A submission with an image whose `lat` value is well-formed but out of
range. -/
def reqHugeLat : PostRequest :=
  { username := "alice", form := [("message", "hello"), ("lat", "1e999"), ("lon", "0")],
    image := some [1, 2, 3] }

/-- The parameters of `GET /search?lat=1e999&lon=0`. -/
def queryHugeLat : List (String × String) := [("lat", "1e999"), ("lon", "0")]

/-- The object-store operations of a successful `saveToGCS` in `envAllOk`. -/
def gcsOpsExample : List (StoreOp F64) :=
  [.gcsWrite BUCKET_NAME "id-1" [1, 2, 3], .gcsACLSet BUCKET_NAME "id-1"]

/-- The encoding of `hitClean`. -/
def hitCleanJSON : JSON F64 :=
  .object [("user", .string "alice"), ("message", .string "hello"),
    ("location", .object [("lat", .number (.fin 1)), ("lon", .number (.fin 0))]),
    ("url", .string "")]

/-- All remote calls succeed except the write of the object's bytes. -/
def envGCSFails : PostEnv := { envAllOk with gcsCopy := false }

/-- All remote calls succeed except the index request. -/
def envESFails : PostEnv := { envAllOk with esIndexDo := false }

/-- All remote calls succeed except the row mutation. -/
def envBTFails : PostEnv := { envAllOk with btApply := false }

/-! ## Content filter: proofs -/

theorem indexFrom_nonneg_iff (substr : List Char) (s : List Char) (i : Nat) :
    0 ≤ indexFrom substr s i ↔ substr <:+: s := by
  induction s generalizing i with
  | nil =>
    cases substr with
    | nil => simp [indexFrom]
    | cons d t => simp [indexFrom, List.isPrefixOf]
  | cons c s ih =>
    rw [List.infix_cons_iff, indexFrom]
    by_cases h : substr.isPrefixOf (c :: s) = true
    · rw [if_pos h]
      have hp : substr <+: c :: s := List.isPrefixOf_iff_prefix.mp h
      simp [hp]
    · rw [if_neg h, ih]
      have hp : ¬ substr <+: c :: s := fun hp => h (List.isPrefixOf_iff_prefix.mpr hp)
      simp [hp]

theorem stringsContains_iff (s substr : String) :
    stringsContains s substr = true ↔ substr.data <:+: s.data := by
  unfold stringsContains stringsIndex
  rw [decide_eq_true_iff]
  exact indexFrom_nonneg_iff _ _ _

theorem containsFilteredWordsLoop_iff (s : String) (ws : List String) :
    containsFilteredWordsLoop s ws = true ↔ ∃ w ∈ ws, w.data <:+: s.data := by
  induction ws with
  | nil => simp [containsFilteredWordsLoop]
  | cons w rest ih =>
    unfold containsFilteredWordsLoop
    by_cases h : stringsContains s w = true
    · rw [if_pos h]
      simp only [List.mem_cons, exists_eq_or_imp, true_iff]
      exact Or.inl ((stringsContains_iff s w).mp h)
    · rw [if_neg h, ih]
      simp only [List.mem_cons, exists_eq_or_imp]
      have hn : ¬ w.data <:+: s.data := fun hi => h ((stringsContains_iff s w).mpr hi)
      simp [hn]

/-- C1: `containsFilteredWords s` is true exactly when one of "fuck", "dick",
"ass" occurs in `s` as a contiguous run of characters, compared exactly (no case
folding, no word boundary); "what the fuck" is filtered, "hello world" is not,
"FUCK" is not (case) and "class" is (no word boundary). -/
theorem containsFilteredWords_iff_substring :
    (∀ s : String, containsFilteredWords s = true ↔
      ("fuck".data <:+: s.data ∨ "dick".data <:+: s.data ∨ "ass".data <:+: s.data)) ∧
    containsFilteredWords "what the fuck" = true ∧
    containsFilteredWords "hello world" = false ∧
    containsFilteredWords "FUCK" = false ∧
    containsFilteredWords "class" = true := by
  refine ⟨fun s => ?_, by decide, by decide, by decide, by decide⟩
  unfold containsFilteredWords
  rw [containsFilteredWordsLoop_iff]
  simp [filteredWords]

/-! ## Search: proofs -/

theorem filterHits_elems {F : Type} (hits : List (Post F)) (ps : Slice (Post F)) :
    (filterHits hits ps).elems =
      ps.elems ++ hits.filter (fun p => !containsFilteredWords p.Message) := by
  induction hits generalizing ps with
  | nil => simp [filterHits]
  | cons p rest ih =>
    unfold filterHits
    by_cases h : containsFilteredWords p.Message = true
    · simp [h, ih]
    · have h2 : containsFilteredWords p.Message = false := by simpa using h
      rw [if_pos (by simp [h2]), ih, List.filter_cons_of_pos (by simp [h2])]
      cases ps <;> simp [goAppend, Slice.elems]

/-- C2: when the index answers the search with the posts `hits`, the slice
`handlerSearch` hands to `json.Marshal` holds exactly the hits whose message is
not filtered by `containsFilteredWords`, each once, unchanged and in the order
of `hits`; and the body written is the encoding of that slice. -/
theorem handlerSearch_serializes_unfiltered_hits {F : Type} (fl : Float64Ops F)
    (query : List (String × String)) (env : SearchEnv F) (hits : List (Post F))
    (hc : env.esNewClient = true)
    (hs : env.esSearch INDEX (geoQuery fl query) = some hits) :
    ∃ ps : Slice (Post F),
      (handlerSearch fl query env).marshalled = some ps ∧
      ps.elems = hits.filter (fun p => !containsFilteredWords p.Message) ∧
      ∀ js, jsonMarshal fl ps = some js →
        (handlerSearch fl query env).w.body = [Chunk.json js] := by
  refine ⟨filterHits hits none, ?_, ?_, ?_⟩
  · unfold handlerSearch
    simp only [hc, hs]
    cases hm : jsonMarshal fl (filterHits hits none) <;> simp
  · rw [filterHits_elems]
    simp [Slice.elems]
  · intro js hj
    unfold handlerSearch
    simp only [hc, hs, hj]
    simp [Write, WriteHeader, HeaderSet, HeaderDel, ResponseWriter.new]

theorem handlerSearch_serializes_unfiltered_hits_witness :
    ∃ ps : Slice (Post F64),
      (handlerSearch exampleOps queryNoRange searchEnvTwoHits).marshalled = some ps ∧
      ps.elems = [hitFiltered, hitClean].filter (fun p => !containsFilteredWords p.Message) ∧
      ∀ js, jsonMarshal exampleOps ps = some js →
        (handlerSearch exampleOps queryNoRange searchEnvTwoHits).w.body = [Chunk.json js] :=
  handlerSearch_serializes_unfiltered_hits exampleOps queryNoRange searchEnvTwoHits
    [hitFiltered, hitClean] rfl rfl

theorem handlerSearch_congr {F : Type} (fl : Float64Ops F) (q1 q2 : List (String × String))
    (env : SearchEnv F) (h : geoQuery fl q1 = geoQuery fl q2) :
    handlerSearch fl q1 env = handlerSearch fl q2 env := by
  unfold handlerSearch
  rw [h]

/-- C3: a search whose `range` parameter is absent or empty builds the same
geo-distance query, with distance "200km", as the search with the same `lat`
and `lon` and `range=200`, and the handler then behaves identically; a search
with a non-empty `range` value `v` uses the distance `v` followed by "km". -/
theorem geoQuery_default_range {F : Type} (fl : Float64Ops F)
    (q q200 qv : List (String × String)) (env : SearchEnv F)
    (hr : Get q "range" = "") (h200 : Get q200 "range" = "200")
    (hlat : Get q200 "lat" = Get q "lat") (hlon : Get q200 "lon" = Get q "lon")
    (hv : Get qv "range" ≠ "") :
    geoQuery fl q = geoQuery fl q200 ∧
    (geoQuery fl q).distance = "200km" ∧
    handlerSearch fl q env = handlerSearch fl q200 env ∧
    (geoQuery fl qv).distance = Get qv "range" ++ "km" := by
  have hq : geoQuery fl q = geoQuery fl q200 := by
    simp only [geoQuery, hr, h200, hlat, hlon]
    simp [DISTANCE]
  refine ⟨hq, ?_, handlerSearch_congr fl q q200 env hq, ?_⟩
  · simp [geoQuery, hr, DISTANCE]
  · simp [geoQuery, hv]

theorem geoQuery_default_range_witness :
    geoQuery exampleOps queryNoRange = geoQuery exampleOps queryRange200 ∧
    (geoQuery exampleOps queryNoRange).distance = "200km" ∧
    handlerSearch exampleOps queryNoRange searchEnvTwoHits =
      handlerSearch exampleOps queryRange200 searchEnvTwoHits ∧
    (geoQuery exampleOps queryRange15).distance = Get queryRange15 "range" ++ "km" :=
  geoQuery_default_range exampleOps queryNoRange queryRange200 queryRange15 searchEnvTwoHits
    (by decide) (by decide) (by decide) (by decide) (by decide)

/-! ## Ingestion: proofs -/

/-- C4 (as stated, refuted): a submission without an image, with every backend
available, reaches neither the index nor the wide-column store: the handler
issues no remote operation and panics. -/
theorem handlerPost_no_image_counterexample :
    reqNoImage.image = none ∧
    (handlerPost exampleOps reqNoImage envAllOk).ops = [] ∧
    (¬ ∃ op ∈ (handlerPost exampleOps reqNoImage envAllOk).ops, op.store = Store.geoIndex) ∧
    (¬ ∃ op ∈ (handlerPost exampleOps reqNoImage envAllOk).ops, op.store = Store.wideColumn) ∧
    (handlerPost exampleOps reqNoImage envAllOk).panicked = true := by
  decide

/-- C4 (amended): for every submission without an `image` file the handler
issues no remote operation at all (no object write, no index request, no row
mutation), the post's url stays empty, and the handler panics: the request is
failed because the image is absent. -/
theorem handlerPost_no_image {F : Type} (fl : Float64Ops F) (r : PostRequest) (env : PostEnv)
    (h : r.image = none) :
    (handlerPost fl r env).ops = [] ∧
    (handlerPost fl r env).p.Url = "" ∧
    (handlerPost fl r env).panicked = true := by
  unfold handlerPost
  simp [h, formPost]

theorem handlerPost_no_image_witness :
    (handlerPost exampleOps reqNoImage envAllOk).ops = [] ∧
    (handlerPost exampleOps reqNoImage envAllOk).p.Url = "" ∧
    (handlerPost exampleOps reqNoImage envAllOk).panicked = true :=
  handlerPost_no_image exampleOps reqNoImage envAllOk rfl

theorem saveToGCS_stores {F : Type} (env : PostEnv) (file : List Nat) (bucket name : String) :
    ((saveToGCS env file bucket name : List (StoreOp F) × GCSResult).1.map StoreOp.store = [] ∨
     (saveToGCS env file bucket name : List (StoreOp F) × GCSResult).1.map StoreOp.store
        = [Store.object] ∨
     (saveToGCS env file bucket name : List (StoreOp F) × GCSResult).1.map StoreOp.store
        = [Store.object, Store.object]) := by
  unfold saveToGCS
  cases env.gcsNewClient <;> cases env.gcsBucketAttrs <;> cases env.gcsCopy <;>
    cases env.gcsClose <;> cases env.gcsACLSet <;> cases env.gcsObjAttrs <;>
    simp [StoreOp.store]

theorem saveToGCS_ok {F : Type} (env : PostEnv) (file : List Nat) (bucket name link : String)
    (ops1 : List (StoreOp F)) (h : saveToGCS env file bucket name = (ops1, GCSResult.ok link)) :
    ops1 = [StoreOp.gcsWrite bucket name file, StoreOp.gcsACLSet bucket name] ∧
    env.gcsNewClient = true ∧ env.gcsBucketAttrs = true ∧ env.gcsCopy = true ∧
    env.gcsClose = true ∧ env.gcsACLSet = true ∧ env.gcsObjAttrs = some link := by
  unfold saveToGCS at h
  cases h1 : env.gcsNewClient <;> cases h2 : env.gcsBucketAttrs <;> cases h3 : env.gcsCopy <;>
    cases h4 : env.gcsClose <;> cases h5 : env.gcsACLSet <;> cases h6 : env.gcsObjAttrs <;>
    simp [h1, h2, h3, h4, h5, h6] at h
  obtain ⟨ho, hl⟩ := h
  simp [ho, hl]

theorem saveToES_cases {F : Type} (env : PostEnv) (p : Post F) (id : String) :
    (saveToES env p id = ([], false) ∧ env.esNewClient = false) ∨
    (saveToES env p id = ([StoreOp.esIndex INDEX TYPE id p true], false) ∧
      env.esNewClient = true ∧ env.esIndexDo = false) ∨
    (saveToES env p id = ([StoreOp.esIndex INDEX TYPE id p true], true) ∧
      env.esNewClient = true ∧ env.esIndexDo = true) := by
  unfold saveToES
  cases env.esNewClient <;> cases env.esIndexDo <;> simp

theorem saveToBigTable_cases {F : Type} (fl : Float64Ops F) (env : PostEnv) (p : Post F)
    (id : String) :
    (saveToBigTable fl env p id = ([], false) ∧ env.btNewClient = false) ∨
    (∃ ok, saveToBigTable fl env p id
        = ([StoreOp.btApply "post" id (btMutation fl p env.btNow)], ok) ∧
      env.btNewClient = true ∧ env.btApply = ok) := by
  unfold saveToBigTable
  cases env.btNewClient <;> cases env.btApply <;> simp

theorem handlerPost_ops_no_image {F : Type} (fl : Float64Ops F) (r : PostRequest)
    (env : PostEnv) (h : r.image = none) : (handlerPost fl r env).ops = [] := by
  unfold handlerPost
  simp [h]

theorem handlerPost_ops_gcs_not_ok {F : Type} (fl : Float64Ops F) (r : PostRequest)
    (env : PostEnv) (file : List Nat) (h : r.image = some file)
    (hn : ∀ link, (saveToGCS env file BUCKET_NAME env.uuid :
      List (StoreOp F) × GCSResult).2 ≠ GCSResult.ok link) :
    (handlerPost fl r env).ops
      = (saveToGCS env file BUCKET_NAME env.uuid : List (StoreOp F) × GCSResult).1 := by
  unfold handlerPost
  simp only [h]
  rcases hg : (saveToGCS env file BUCKET_NAME env.uuid : List (StoreOp F) × GCSResult)
    with ⟨ops1, res⟩
  cases res with
  | ok link => exact absurd (by rw [hg]) (hn link)
  | err => simp
  | panic => simp

theorem handlerPost_ops_gcs_ok {F : Type} (fl : Float64Ops F) (r : PostRequest)
    (env : PostEnv) (file : List Nat) (ops1 : List (StoreOp F)) (link : String)
    (h : r.image = some file)
    (hg : saveToGCS env file BUCKET_NAME env.uuid = (ops1, GCSResult.ok link)) :
    (handlerPost fl r env).p = { formPost fl r with Url := link } ∧
    (handlerPost fl r env).ops =
      ops1 ++ (saveToES env { formPost fl r with Url := link } env.uuid).1 ++
        (if (saveToES env { formPost fl r with Url := link } env.uuid).2 = true then
          (saveToBigTable fl env { formPost fl r with Url := link } env.uuid).1
         else []) := by
  unfold handlerPost
  simp only [h, hg]
  rcases saveToES_cases env { formPost fl r with Url := link } env.uuid with
    ⟨he, _⟩ | ⟨he, _⟩ | ⟨he, _⟩
  · simp [he]
  · simp [he]
  · rcases saveToBigTable_cases fl env { formPost fl r with Url := link } env.uuid with
      ⟨hb, _⟩ | ⟨ok, hb, _⟩
    · simp [he, hb]
    · cases ok <;> simp [he, hb]

/-- C7: the backends are addressed in the order object store, index,
wide-column store (the backends of the operations issued always form an initial
part of that sequence, and every operation is a write: none removes a record);
an index request is issued only when an image was present and every step of the
object write succeeded, and a row mutation is issued only when the index
request succeeded. -/
theorem handlerPost_writes_sequential {F : Type} (fl : Float64Ops F) (r : PostRequest)
    (env : PostEnv) :
    ((handlerPost fl r env).ops.map StoreOp.store) <+:
      [Store.object, Store.object, Store.geoIndex, Store.wideColumn] ∧
    ((∃ op ∈ (handlerPost fl r env).ops, op.store = Store.geoIndex) →
      r.image.isSome = true ∧ env.gcsNewClient = true ∧ env.gcsBucketAttrs = true ∧
      env.gcsCopy = true ∧ env.gcsClose = true ∧ env.gcsACLSet = true ∧
      env.gcsObjAttrs.isSome = true) ∧
    ((∃ op ∈ (handlerPost fl r env).ops, op.store = Store.wideColumn) →
      env.esNewClient = true ∧ env.esIndexDo = true) := by
  cases hi : r.image with
  | none =>
    rw [handlerPost_ops_no_image fl r env hi]
    simp
  | some file =>
    rcases hg : (saveToGCS env file BUCKET_NAME env.uuid : List (StoreOp F) × GCSResult)
      with ⟨ops1, res⟩
    have hbad : (∀ link, res ≠ GCSResult.ok link) →
        ((handlerPost fl r env).ops.map StoreOp.store = [] ∨
         (handlerPost fl r env).ops.map StoreOp.store = [Store.object] ∨
         (handlerPost fl r env).ops.map StoreOp.store = [Store.object, Store.object]) := by
      intro hn
      rw [handlerPost_ops_gcs_not_ok fl r env file hi (by rw [hg]; exact hn)]
      exact saveToGCS_stores env file BUCKET_NAME env.uuid
    have hfin : ((handlerPost fl r env).ops.map StoreOp.store = [] ∨
         (handlerPost fl r env).ops.map StoreOp.store = [Store.object] ∨
         (handlerPost fl r env).ops.map StoreOp.store = [Store.object, Store.object]) →
        ((handlerPost fl r env).ops.map StoreOp.store) <+:
          [Store.object, Store.object, Store.geoIndex, Store.wideColumn] ∧
        ((∃ op ∈ (handlerPost fl r env).ops, op.store = Store.geoIndex) →
          (some file).isSome = true ∧ env.gcsNewClient = true ∧ env.gcsBucketAttrs = true ∧
          env.gcsCopy = true ∧ env.gcsClose = true ∧ env.gcsACLSet = true ∧
          env.gcsObjAttrs.isSome = true) ∧
        ((∃ op ∈ (handlerPost fl r env).ops, op.store = Store.wideColumn) →
          env.esNewClient = true ∧ env.esIndexDo = true) := by
      intro hc
      have hmem : ∀ op ∈ (handlerPost fl r env).ops, op.store = Store.object := by
        intro op hop
        have hm : op.store ∈ (handlerPost fl r env).ops.map StoreOp.store :=
          List.mem_map_of_mem _ hop
        rcases hc with hc | hc | hc <;> rw [hc] at hm <;> simp at hm <;> exact hm
      refine ⟨?_, ?_, ?_⟩
      · rcases hc with hc | hc | hc <;> rw [hc] <;> decide
      · rintro ⟨op, hop, hs⟩
        rw [hmem op hop] at hs
        exact absurd hs (by decide)
      · rintro ⟨op, hop, hs⟩
        rw [hmem op hop] at hs
        exact absurd hs (by decide)
    cases res with
    | err => exact hfin (hbad (fun link => by simp))
    | panic => exact hfin (hbad (fun link => by simp))
    | ok link =>
      obtain ⟨ho, g1, g2, g3, g4, g5, g6⟩ := saveToGCS_ok env file BUCKET_NAME env.uuid link ops1 hg
      have hops := (handlerPost_ops_gcs_ok fl r env file ops1 link hi hg).2
      rw [hops, ho]
      rcases saveToES_cases env { formPost fl r with Url := link } env.uuid with
        ⟨he, e1⟩ | ⟨he, e1, e2⟩ | ⟨he, e1, e2⟩
      · simp [he, StoreOp.store, g1, g2, g3, g4, g5, g6]
      · simp [he, StoreOp.store, g1, g2, g3, g4, g5, g6]
      · rcases saveToBigTable_cases fl env { formPost fl r with Url := link } env.uuid with
          ⟨hb, _⟩ | ⟨ok, hb, _⟩
        · simp [he, hb, StoreOp.store, g1, g2, g3, g4, g5, g6, e1, e2]
        · simp [he, hb, StoreOp.store, g1, g2, g3, g4, g5, g6, e1, e2]

theorem handlerPost_ops_object_of_not_ok {F : Type} (fl : Float64Ops F) (r : PostRequest)
    (env : PostEnv) (file : List Nat) (h : r.image = some file)
    (hn : ∀ link, (saveToGCS env file BUCKET_NAME env.uuid :
      List (StoreOp F) × GCSResult).2 ≠ GCSResult.ok link) :
    ∀ op ∈ (handlerPost fl r env).ops, op.store = Store.object := by
  intro op hop
  rw [handlerPost_ops_gcs_not_ok fl r env file h hn] at hop
  have hm : op.store ∈ (saveToGCS env file BUCKET_NAME env.uuid :
      List (StoreOp F) × GCSResult).1.map StoreOp.store := List.mem_map_of_mem _ hop
  rcases @saveToGCS_stores F env file BUCKET_NAME env.uuid with hc | hc | hc <;>
    rw [hc] at hm <;> simp at hm <;> exact hm

/-- C5 (as stated, refuted): with an image stored under a non-empty retrieval
URL and every backend available, the row mutation sent to the wide-column store
has no cell holding that URL and no `url` column. -/
theorem handlerPost_bigtable_url_counterexample :
    reqWithImage.image = some [1, 2, 3] ∧
    (saveToGCS envAllOk [1, 2, 3] BUCKET_NAME envAllOk.uuid :
      List (StoreOp F64) × GCSResult).2 = GCSResult.ok "https://storage/id-1" ∧
    "https://storage/id-1" ≠ "" ∧
    ∃ m, StoreOp.btApply "post" "id-1" m ∈ (handlerPost exampleOps reqWithImage envAllOk).ops ∧
      ∀ c ∈ m, c.value ≠ "https://storage/id-1" ∧ c.column ≠ "url" := by
  refine ⟨by decide, by decide, by decide,
    btMutation exampleOps { formPost exampleOps reqWithImage with Url := "https://storage/id-1" } 1000,
    by decide, by decide⟩

/-- C5 (amended): when the image is stored with a non-empty retrieval URL, the
object-store operations come first, the post's url is that URL, every index
request issued carries the post with that non-empty url (and one is issued as
soon as the index client is available); every row mutation issued consists of
the four columns post:user, post:message, location:lat, location:lon and has no
url column. -/
theorem handlerPost_url_in_index_record {F : Type} (fl : Float64Ops F) (r : PostRequest)
    (env : PostEnv) (file : List Nat) (ops1 : List (StoreOp F)) (link : String)
    (hi : r.image = some file)
    (hg : saveToGCS env file BUCKET_NAME env.uuid = (ops1, GCSResult.ok link))
    (hl : link ≠ "") :
    (∃ rest, (handlerPost fl r env).ops = ops1 ++ rest ∧
      (∀ op ∈ ops1, op.store = Store.object) ∧ (∀ op ∈ rest, op.store ≠ Store.object)) ∧
    (handlerPost fl r env).p.Url = link ∧
    (∀ idx typ id body rf, StoreOp.esIndex idx typ id body rf ∈ (handlerPost fl r env).ops →
      body.Url = link ∧ body.Url ≠ "") ∧
    (env.esNewClient = true →
      ∃ body, StoreOp.esIndex INDEX TYPE env.uuid body true ∈ (handlerPost fl r env).ops) ∧
    (∀ tbl key m, StoreOp.btApply tbl key m ∈ (handlerPost fl r env).ops →
      m.map (fun c => (c.family, c.column)) =
        [("post", "user"), ("post", "message"), ("location", "lat"), ("location", "lon")]) := by
  obtain ⟨ho, g1, g2, g3, g4, g5, g6⟩ := saveToGCS_ok env file BUCKET_NAME env.uuid link ops1 hg
  obtain ⟨hp, hops⟩ := handlerPost_ops_gcs_ok fl r env file ops1 link hi hg
  rw [hops, hp, ho]
  rcases saveToES_cases env { formPost fl r with Url := link } env.uuid with
    ⟨he, e1⟩ | ⟨he, e1, e2⟩ | ⟨he, e1, e2⟩
  · simp [he, StoreOp.store, e1]
  · simp [he, StoreOp.store, e1]
    rintro _ _ _ _ - - - rfl
    exact ⟨rfl, hl⟩
  · rcases saveToBigTable_cases fl env { formPost fl r with Url := link } env.uuid with
      ⟨hb, _⟩ | ⟨ok, hb, _⟩
    · simp [he, hb, StoreOp.store, e1]
      rintro _ _ _ _ - - - rfl
      exact ⟨rfl, hl⟩
    · simp [he, hb, StoreOp.store, e1, btMutation]
      refine ⟨?_, ?_⟩
      · rintro _ _ _ _ - - - rfl
        exact ⟨rfl, hl⟩
      · rintro _ _ _ - - rfl
        simp

theorem handlerPost_url_in_index_record_witness :
    (∃ rest, (handlerPost exampleOps reqWithImage envAllOk).ops =
        [StoreOp.gcsWrite BUCKET_NAME "id-1" [1, 2, 3], StoreOp.gcsACLSet BUCKET_NAME "id-1"]
          ++ rest ∧
      (∀ op ∈ [StoreOp.gcsWrite BUCKET_NAME "id-1" [1, 2, 3],
          (StoreOp.gcsACLSet BUCKET_NAME "id-1" : StoreOp F64)], op.store = Store.object) ∧
      (∀ op ∈ rest, op.store ≠ Store.object)) ∧
    (handlerPost exampleOps reqWithImage envAllOk).p.Url = "https://storage/id-1" ∧
    (∀ idx typ id body rf,
      StoreOp.esIndex idx typ id body rf ∈ (handlerPost exampleOps reqWithImage envAllOk).ops →
      body.Url = "https://storage/id-1" ∧ body.Url ≠ "") ∧
    (envAllOk.esNewClient = true →
      ∃ body, StoreOp.esIndex INDEX TYPE envAllOk.uuid body true ∈
        (handlerPost exampleOps reqWithImage envAllOk).ops) ∧
    (∀ tbl key m, StoreOp.btApply tbl key m ∈ (handlerPost exampleOps reqWithImage envAllOk).ops →
      m.map (fun c => (c.family, c.column)) =
        [("post", "user"), ("post", "message"), ("location", "lat"), ("location", "lon")]) :=
  handlerPost_url_in_index_record exampleOps reqWithImage envAllOk [1, 2, 3]
    [StoreOp.gcsWrite BUCKET_NAME "id-1" [1, 2, 3], StoreOp.gcsACLSet BUCKET_NAME "id-1"]
    "https://storage/id-1" rfl rfl (by decide)

theorem handlerPost_status_ok {F : Type} (fl : Float64Ops F) (r : PostRequest)
    (env : PostEnv) :
    (handlerPost fl r env).w.status = some StatusOK ∧
    ∃ rest, (handlerPost fl r env).w.body =
      Chunk.text ("Post received: " ++ Get r.form "message" ++ "\n") :: rest := by
  cases hi : r.image with
  | none =>
    unfold handlerPost
    simp [hi, httpError, Write, WriteHeader, HeaderSet, HeaderDel, ResponseWriter.new, formPost]
  | some file =>
    rcases hg : (saveToGCS env file BUCKET_NAME env.uuid : List (StoreOp F) × GCSResult)
      with ⟨ops1, res⟩
    cases res with
    | err =>
      unfold handlerPost
      simp [hi, hg, httpError, Write, WriteHeader, HeaderSet, HeaderDel, ResponseWriter.new,
        formPost]
    | panic =>
      unfold handlerPost
      simp [hi, hg, Write, WriteHeader, HeaderSet, HeaderDel, ResponseWriter.new, formPost]
    | ok link =>
      unfold handlerPost
      simp only [hi, hg]
      rcases saveToES_cases env { formPost fl r with Url := link } env.uuid with
        ⟨he, _⟩ | ⟨he, _⟩ | ⟨he, _⟩
      · simp only [he]
        simp [Write, WriteHeader, HeaderSet, HeaderDel, ResponseWriter.new, formPost]
      · simp only [he]
        simp [Write, WriteHeader, HeaderSet, HeaderDel, ResponseWriter.new, formPost]
      · rcases saveToBigTable_cases fl env { formPost fl r with Url := link } env.uuid with
          ⟨hb, _⟩ | ⟨ok, hb, _⟩
        · simp only [he, hb]
          simp [Write, WriteHeader, HeaderSet, HeaderDel, ResponseWriter.new, formPost]
        · cases ok <;> simp only [he, hb] <;>
            simp [Write, WriteHeader, HeaderSet, HeaderDel, ResponseWriter.new, formPost]

/-- C6 (the code at the failing inputs): when the index request fails, when the
object write fails and when the row mutation fails, the status committed on the
response is 200 and the body starts with the confirmation line "Post received:
hello"; only the object-write failure adds the text "GCS is not setup", after
the status is already committed; in all three cases the handler panics. In
fact on every request and every outcome of the stores the committed status is
200 and the body starts with the confirmation line. -/
theorem handlerPost_failure_response :
    ((handlerPost exampleOps reqWithImage envESFails).panicked = true ∧
     (handlerPost exampleOps reqWithImage envESFails).w.status = some StatusOK ∧
     (handlerPost exampleOps reqWithImage envESFails).w.body
        = [Chunk.text "Post received: hello\n"]) ∧
    ((handlerPost exampleOps reqWithImage envGCSFails).panicked = true ∧
     (handlerPost exampleOps reqWithImage envGCSFails).w.status = some StatusOK ∧
     (handlerPost exampleOps reqWithImage envGCSFails).w.body
        = [Chunk.text "Post received: hello\n", Chunk.text "GCS is not setup\n"]) ∧
    ((handlerPost exampleOps reqWithImage envBTFails).panicked = true ∧
     (handlerPost exampleOps reqWithImage envBTFails).w.status = some StatusOK ∧
     (handlerPost exampleOps reqWithImage envBTFails).w.body
        = [Chunk.text "Post received: hello\n"]) ∧
    StatusOK ≠ StatusInternalServerError ∧
    (∀ (F : Type) (fl : Float64Ops F) (r : PostRequest) (env : PostEnv),
      (handlerPost fl r env).w.status = some StatusOK ∧
      ∃ rest, (handlerPost fl r env).w.body =
        Chunk.text ("Post received: " ++ Get r.form "message" ++ "\n") :: rest) := by
  refine ⟨⟨by decide, by decide, rfl⟩, ⟨by decide, by decide, rfl⟩,
    ⟨by decide, by decide, rfl⟩, by decide, ?_⟩
  intro F fl r env
  exact handlerPost_status_ok fl r env

/-- C8: with a Bigtable client, `saveToBigTable p id` issues exactly one row
mutation, on row key `id`, made of the cells post:user = `p.User`, post:message
= `p.Message`, location:lat and location:lon = the formatted coordinates, all
with the one timestamp read from `bigtable.Now()`; and in `handlerPost` the row
key of a mutation is the id of the index request and the row is built from the
post that was indexed. -/
theorem saveToBigTable_row {F : Type} (fl : Float64Ops F) (env : PostEnv) (p : Post F)
    (id : String) (hc : env.btNewClient = true) :
    (saveToBigTable fl env p id).1 =
      [StoreOp.btApply "post" id
        [ { family := "post", column := "user", ts := env.btNow, value := p.User },
          { family := "post", column := "message", ts := env.btNow, value := p.Message },
          { family := "location", column := "lat", ts := env.btNow,
            value := fl.FormatFloat p.Location.Lat },
          { family := "location", column := "lon", ts := env.btNow,
            value := fl.FormatFloat p.Location.Lon } ]] ∧
    ∀ (r : PostRequest) (idx typ id1 : String) (body : Post F) (rf : Bool)
      (tbl id2 : String) (m : List Cell),
      StoreOp.esIndex idx typ id1 body rf ∈ (handlerPost fl r env).ops →
      StoreOp.btApply tbl id2 m ∈ (handlerPost fl r env).ops →
      id2 = id1 ∧ m = btMutation fl body env.btNow := by
  constructor
  · unfold saveToBigTable
    cases env.btApply <;> simp [hc, btMutation]
  · intro r idx typ id1 body rf tbl id2 m h1 h2
    cases hi : r.image with
    | none =>
      rw [handlerPost_ops_no_image fl r env hi] at h1
      simp at h1
    | some file =>
      rcases hg : (saveToGCS env file BUCKET_NAME env.uuid : List (StoreOp F) × GCSResult)
        with ⟨ops1, res⟩
      have hbad : (∀ link, res ≠ GCSResult.ok link) → False := by
        intro hn
        have := handlerPost_ops_object_of_not_ok fl r env file hi (by rw [hg]; exact hn) _ h1
        simp [StoreOp.store] at this
      cases res with
      | err => exact (hbad (fun link => by simp)).elim
      | panic => exact (hbad (fun link => by simp)).elim
      | ok link =>
        obtain ⟨ho, -⟩ := saveToGCS_ok env file BUCKET_NAME env.uuid link ops1 hg
        have hops := (handlerPost_ops_gcs_ok fl r env file ops1 link hi hg).2
        rw [hops, ho] at h1 h2
        rcases saveToES_cases env { formPost fl r with Url := link } env.uuid with
          ⟨he, _⟩ | ⟨he, _⟩ | ⟨he, _⟩
        · simp [he] at h1
        · simp [he] at h2
        · rcases saveToBigTable_cases fl env { formPost fl r with Url := link } env.uuid with
            ⟨hb, _⟩ | ⟨ok, hb, _⟩
          · simp [he, hb] at h2
          · simp [he, hb] at h1 h2
            obtain ⟨-, -, rfl, rfl, -⟩ := h1
            obtain ⟨-, rfl, rfl⟩ := h2
            exact ⟨rfl, rfl⟩

theorem saveToBigTable_row_witness :
    (saveToBigTable exampleOps envAllOk hitClean "id-1").1 =
      [StoreOp.btApply "post" "id-1"
        [ { family := "post", column := "user", ts := envAllOk.btNow, value := hitClean.User },
          { family := "post", column := "message", ts := envAllOk.btNow,
            value := hitClean.Message },
          { family := "location", column := "lat", ts := envAllOk.btNow,
            value := exampleOps.FormatFloat hitClean.Location.Lat },
          { family := "location", column := "lon", ts := envAllOk.btNow,
            value := exampleOps.FormatFloat hitClean.Location.Lon } ]] ∧
    ∀ (r : PostRequest) (idx typ id1 : String) (body : Post F64) (rf : Bool)
      (tbl id2 : String) (m : List Cell),
      StoreOp.esIndex idx typ id1 body rf ∈ (handlerPost exampleOps r envAllOk).ops →
      StoreOp.btApply tbl id2 m ∈ (handlerPost exampleOps r envAllOk).ops →
      id2 = id1 ∧ m = btMutation exampleOps body envAllOk.btNow :=
  saveToBigTable_row exampleOps envAllOk hitClean "id-1" rfl

theorem filterHits_all_filtered {F : Type} (hits : List (Post F)) (ps : Slice (Post F))
    (h : hits.filter (fun p => !containsFilteredWords p.Message) = []) :
    filterHits hits ps = ps := by
  induction hits generalizing ps with
  | nil => rfl
  | cons p rest ih =>
    unfold filterHits
    by_cases hp : containsFilteredWords p.Message = true
    · rw [List.filter_cons_of_neg (by simp [hp])] at h
      simp [hp, ih ps h]
    · have h2 : containsFilteredWords p.Message = false := by simpa using hp
      rw [List.filter_cons_of_pos (by simp [h2])] at h
      simp at h

/-- C10 (the code at the failing inputs): when the index returns no hit, and
when its only hit is filtered, the search completes without a panic and the
body written is the JSON value `null`, which is not an array. The same holds
for every search whose hits are all filtered. -/
theorem handlerSearch_empty_result_body :
    (handlerSearch exampleOps queryNoRange searchEnvNoHits).panicked = false ∧
    (handlerSearch exampleOps queryNoRange searchEnvNoHits).w.body = [Chunk.json JSON.null] ∧
    (handlerSearch exampleOps queryNoRange searchEnvAllFiltered).panicked = false ∧
    (handlerSearch exampleOps queryNoRange searchEnvAllFiltered).w.body = [Chunk.json JSON.null] ∧
    (∀ elems : List (JSON F64), (JSON.null : JSON F64) ≠ JSON.array elems) ∧
    (∀ (F : Type) (fl : Float64Ops F) (query : List (String × String)) (env : SearchEnv F)
      (hits : List (Post F)),
      env.esNewClient = true → env.esSearch INDEX (geoQuery fl query) = some hits →
      hits.filter (fun p => !containsFilteredWords p.Message) = [] →
      (handlerSearch fl query env).panicked = false ∧
      (handlerSearch fl query env).w.body = [Chunk.json JSON.null]) := by
  refine ⟨by decide, rfl, by decide, rfl, ?_, ?_⟩
  · intro elems h
    cases h
  · intro F fl query env hits hc hs hf
    unfold handlerSearch
    simp [hc, hs, filterHits_all_filtered hits none hf, jsonMarshal, Write, WriteHeader,
      HeaderSet, HeaderDel, ResponseWriter.new]

/-! ## Coordinates that fail to parse -/

theorem Get_cons (k v : String) (l : List (String × String)) (key : String) :
    Get ((k, v) :: l) key = if key = k then v else Get l key := by
  unfold Get
  by_cases h : key = k
  · simp [h, List.lookup]
  · have hb : (key == k) = false := by simpa using h
    simp [h, List.lookup, hb]

theorem handlerPost_congr {F : Type} (fl : Float64Ops F) (r1 r2 : PostRequest) (env : PostEnv)
    (hp : formPost fl r1 = formPost fl r2) (hi : r1.image = r2.image) :
    handlerPost fl r1 env = handlerPost fl r2 env := by
  unfold handlerPost
  rw [hp, hi]

theorem handlerPost_p_location {F : Type} (fl : Float64Ops F) (r : PostRequest) (env : PostEnv) :
    (handlerPost fl r env).p.Location = (formPost fl r).Location := by
  cases hi : r.image with
  | none =>
    unfold handlerPost
    simp [hi]
  | some file =>
    rcases hg : (saveToGCS env file BUCKET_NAME env.uuid : List (StoreOp F) × GCSResult)
      with ⟨ops1, res⟩
    cases res with
    | err =>
      unfold handlerPost
      simp [hi, hg]
    | panic =>
      unfold handlerPost
      simp [hi, hg]
    | ok link =>
      rw [(handlerPost_ops_gcs_ok fl r env file ops1 link hi hg).1]

theorem handlerSearch_searches {F : Type} (fl : Float64Ops F) (q : List (String × String))
    (senv : SearchEnv F) :
    ∀ s ∈ (handlerSearch fl q senv).searches, s = (INDEX, geoQuery fl q) := by
  intro s hmem
  unfold handlerSearch at hmem
  cases hc : senv.esNewClient with
  | false => simp [hc] at hmem
  | true =>
    cases hs : senv.esSearch INDEX (geoQuery fl q) with
    | none => simpa [hc, hs] using hmem
    | some hits =>
      cases hm : jsonMarshal fl (filterHits hits none) <;> simpa [hc, hs, hm] using hmem

theorem exampleOps_syntax_zero (s : String)
    (h : (exampleOps.ParseFloat s).2 = some NumError.ErrSyntax) :
    (exampleOps.ParseFloat s).1 = exampleOps.zero := by
  simp only [exampleOps] at h ⊢
  split_ifs at h ⊢ <;> simp_all

theorem syntax_error_of_missing {F : Type} (fl : Float64Ops F) (key : String)
    (hempty : (fl.ParseFloat "").2 = some NumError.ErrSyntax)
    (l : List (String × String))
    (h : l.lookup key = none ∨ (fl.ParseFloat (Get l key)).2 = some NumError.ErrSyntax) :
    (fl.ParseFloat (Get l key)).2 = some NumError.ErrSyntax := by
  rcases h with h | h
  · simpa [Get, h] using hempty
  · exact h

/-- C9 (as stated, refuted): the `lat` text "1e999" fails to parse (`ParseFloat`
reports `ErrRange`), the error is dropped, and the coordinate of the post built
by `handlerPost` and of the query built and sent by `handlerSearch` is +Inf,
not zero. -/
theorem handlers_range_error_counterexample :
    (exampleOps.ParseFloat (Get reqHugeLat.form "lat")).2 = some NumError.ErrRange ∧
    (∀ env : PostEnv, (handlerPost exampleOps reqHugeLat env).p.Location.Lat = F64.posInf) ∧
    (exampleOps.ParseFloat (Get queryHugeLat "lat")).2 = some NumError.ErrRange ∧
    (geoQuery exampleOps queryHugeLat).lat = F64.posInf ∧
    (∀ senv : SearchEnv F64, ∀ s ∈ (handlerSearch exampleOps queryHugeLat senv).searches,
      s.2.lat = F64.posInf) ∧
    F64.posInf ≠ exampleOps.zero := by
  refine ⟨by decide, ?_, by decide, by decide, ?_, by decide⟩
  · intro env
    rw [handlerPost_p_location]
    decide
  · intro senv s hs
    rw [handlerSearch_searches exampleOps queryHugeLat senv s hs]
    decide

/-- C9 (amended): let the `lat` (or `lon`) value of a request be absent or not
syntactically well-formed, so that `ParseFloat` reports `ErrSyntax` (the
library then returns the value 0). Neither handler rejects the request: with an
image and every backend answering, `handlerPost` does not panic and sends to
the index and to the wide-column store the post whose coordinate is zero; with
the index answering, `handlerSearch` does not panic, sends the query whose
coordinate is zero and writes the encoded result; and on every outcome of the
backends both handlers behave exactly as on the same request with that
coordinate replaced by a text that parses to zero without error. -/
theorem handlers_discard_syntax_error {F : Type} (fl : Float64Ops F) (key : String)
    (hkey : key = "lat" ∨ key = "lon")
    (hempty : (fl.ParseFloat "").2 = some NumError.ErrSyntax)
    (hsyn : ∀ s, (fl.ParseFloat s).2 = some NumError.ErrSyntax →
      (fl.ParseFloat s).1 = fl.zero)
    (r : PostRequest) (env : PostEnv) (file : List Nat) (ops1 : List (StoreOp F))
    (link : String) (q : List (String × String)) (senv : SearchEnv F)
    (hits : List (Post F)) (js : JSON F) (s0 : String)
    (hpost : r.form.lookup key = none ∨
      (fl.ParseFloat (Get r.form key)).2 = some NumError.ErrSyntax)
    (hsearch : q.lookup key = none ∨
      (fl.ParseFloat (Get q key)).2 = some NumError.ErrSyntax)
    (himg : r.image = some file)
    (hgcs : saveToGCS env file BUCKET_NAME env.uuid = (ops1, GCSResult.ok link))
    (hes : env.esNewClient = true ∧ env.esIndexDo = true)
    (hbt : env.btNewClient = true ∧ env.btApply = true)
    (hsc : senv.esNewClient = true)
    (hss : senv.esSearch INDEX (geoQuery fl q) = some hits)
    (hjs : jsonMarshal fl (filterHits hits none) = some js)
    (hs0 : fl.ParseFloat s0 = (fl.zero, none)) :
    ((handlerPost fl r env).panicked = false ∧
     ∃ body : Post F,
       (handlerPost fl r env).ops =
         ops1 ++ [StoreOp.esIndex INDEX TYPE env.uuid body true,
                  StoreOp.btApply "post" env.uuid (btMutation fl body env.btNow)] ∧
       (handlerPost fl r env).p = body ∧
       body.User = r.username ∧ body.Message = Get r.form "message" ∧ body.Url = link ∧
       body.Location.Lat = (fl.ParseFloat (Get r.form "lat")).1 ∧
       body.Location.Lon = (fl.ParseFloat (Get r.form "lon")).1 ∧
       (key = "lat" → body.Location.Lat = fl.zero) ∧
       (key = "lon" → body.Location.Lon = fl.zero)) ∧
    ((handlerSearch fl q senv).panicked = false ∧
     (handlerSearch fl q senv).searches = [(INDEX, geoQuery fl q)] ∧
     (handlerSearch fl q senv).w.body = [Chunk.json js] ∧
     (geoQuery fl q).lat = (fl.ParseFloat (Get q "lat")).1 ∧
     (geoQuery fl q).lon = (fl.ParseFloat (Get q "lon")).1 ∧
     (key = "lat" → (geoQuery fl q).lat = fl.zero) ∧
     (key = "lon" → (geoQuery fl q).lon = fl.zero)) ∧
    (∀ env2 : PostEnv,
      handlerPost fl r env2 = handlerPost fl { r with form := (key, s0) :: r.form } env2) ∧
    (∀ senv2 : SearchEnv F,
      handlerSearch fl q senv2 = handlerSearch fl ((key, s0) :: q) senv2) := by
  have hp0 := hsyn _ (syntax_error_of_missing fl key hempty r.form hpost)
  have hq0 := hsyn _ (syntax_error_of_missing fl key hempty q hsearch)
  refine ⟨?_, ?_, ?_, ?_⟩
  · obtain ⟨hp, hops⟩ := handlerPost_ops_gcs_ok fl r env file ops1 link himg hgcs
    have he : saveToES env { formPost fl r with Url := link } env.uuid
        = ([StoreOp.esIndex INDEX TYPE env.uuid { formPost fl r with Url := link } true],
           true) := by
      simp [saveToES, hes.1, hes.2]
    have hb : saveToBigTable fl env { formPost fl r with Url := link } env.uuid
        = ([StoreOp.btApply "post" env.uuid
            (btMutation fl { formPost fl r with Url := link } env.btNow)], true) := by
      simp [saveToBigTable, hbt.1, hbt.2]
    constructor
    · unfold handlerPost
      simp only [himg, hgcs, he, hb]
    · refine ⟨{ formPost fl r with Url := link }, ?_, hp, rfl, rfl, rfl, rfl, rfl, ?_, ?_⟩
      · rw [hops, he, hb]
        simp
      · rintro rfl
        exact hp0
      · rintro rfl
        exact hp0
  · refine ⟨?_, ?_, ?_, rfl, rfl, ?_, ?_⟩
    · unfold handlerSearch
      simp [hsc, hss, hjs]
    · unfold handlerSearch
      simp [hsc, hss, hjs]
    · unfold handlerSearch
      simp [hsc, hss, hjs, Write, WriteHeader, HeaderSet, HeaderDel, ResponseWriter.new]
    · rintro rfl
      exact hq0
    · rintro rfl
      exact hq0
  · intro env2
    refine handlerPost_congr fl r { r with form := (key, s0) :: r.form } env2 ?_ rfl
    rcases hkey with rfl | rfl
    · simp [formPost, Get_cons, hs0, hp0]
    · simp [formPost, Get_cons, hs0, hp0]
  · intro senv2
    apply handlerSearch_congr
    rcases hkey with rfl | rfl
    · simp [geoQuery, Get_cons, hs0, hq0]
    · simp [geoQuery, Get_cons, hs0, hq0]

theorem handlers_discard_syntax_error_witness :
    (((handlerPost exampleOps reqMissingLat envAllOk).panicked = false ∧
      ∃ body : Post F64,
        (handlerPost exampleOps reqMissingLat envAllOk).ops =
          gcsOpsExample ++ [StoreOp.esIndex INDEX TYPE envAllOk.uuid body true,
            StoreOp.btApply "post" envAllOk.uuid (btMutation exampleOps body envAllOk.btNow)] ∧
        (handlerPost exampleOps reqMissingLat envAllOk).p = body ∧
        body.User = reqMissingLat.username ∧ body.Message = Get reqMissingLat.form "message" ∧
        body.Url = "https://storage/id-1" ∧
        body.Location.Lat = (exampleOps.ParseFloat (Get reqMissingLat.form "lat")).1 ∧
        body.Location.Lon = (exampleOps.ParseFloat (Get reqMissingLat.form "lon")).1 ∧
        (("lat" : String) = "lat" → body.Location.Lat = exampleOps.zero) ∧
        (("lat" : String) = "lon" → body.Location.Lon = exampleOps.zero)) ∧
     ((handlerSearch exampleOps queryBadLat searchEnvTwoHits).panicked = false ∧
      (handlerSearch exampleOps queryBadLat searchEnvTwoHits).searches
        = [(INDEX, geoQuery exampleOps queryBadLat)] ∧
      (handlerSearch exampleOps queryBadLat searchEnvTwoHits).w.body
        = [Chunk.json (JSON.array [hitCleanJSON])] ∧
      (geoQuery exampleOps queryBadLat).lat = (exampleOps.ParseFloat (Get queryBadLat "lat")).1 ∧
      (geoQuery exampleOps queryBadLat).lon = (exampleOps.ParseFloat (Get queryBadLat "lon")).1 ∧
      (("lat" : String) = "lat" → (geoQuery exampleOps queryBadLat).lat = exampleOps.zero) ∧
      (("lat" : String) = "lon" → (geoQuery exampleOps queryBadLat).lon = exampleOps.zero)) ∧
     (∀ env2 : PostEnv,
       handlerPost exampleOps reqMissingLat env2 =
         handlerPost exampleOps { reqMissingLat with form := ("lat", "0") :: reqMissingLat.form } env2) ∧
     (∀ senv2 : SearchEnv F64,
       handlerSearch exampleOps queryBadLat senv2 =
         handlerSearch exampleOps (("lat", "0") :: queryBadLat) senv2)) ∧
    (((handlerPost exampleOps reqBadLon envAllOk).panicked = false ∧
      ∃ body : Post F64,
        (handlerPost exampleOps reqBadLon envAllOk).ops =
          gcsOpsExample ++ [StoreOp.esIndex INDEX TYPE envAllOk.uuid body true,
            StoreOp.btApply "post" envAllOk.uuid (btMutation exampleOps body envAllOk.btNow)] ∧
        (handlerPost exampleOps reqBadLon envAllOk).p = body ∧
        body.User = reqBadLon.username ∧ body.Message = Get reqBadLon.form "message" ∧
        body.Url = "https://storage/id-1" ∧
        body.Location.Lat = (exampleOps.ParseFloat (Get reqBadLon.form "lat")).1 ∧
        body.Location.Lon = (exampleOps.ParseFloat (Get reqBadLon.form "lon")).1 ∧
        (("lon" : String) = "lat" → body.Location.Lat = exampleOps.zero) ∧
        (("lon" : String) = "lon" → body.Location.Lon = exampleOps.zero)) ∧
     ((handlerSearch exampleOps queryMissingLon searchEnvTwoHits).panicked = false ∧
      (handlerSearch exampleOps queryMissingLon searchEnvTwoHits).searches
        = [(INDEX, geoQuery exampleOps queryMissingLon)] ∧
      (handlerSearch exampleOps queryMissingLon searchEnvTwoHits).w.body
        = [Chunk.json (JSON.array [hitCleanJSON])] ∧
      (geoQuery exampleOps queryMissingLon).lat = (exampleOps.ParseFloat (Get queryMissingLon "lat")).1 ∧
      (geoQuery exampleOps queryMissingLon).lon = (exampleOps.ParseFloat (Get queryMissingLon "lon")).1 ∧
      (("lon" : String) = "lat" → (geoQuery exampleOps queryMissingLon).lat = exampleOps.zero) ∧
      (("lon" : String) = "lon" → (geoQuery exampleOps queryMissingLon).lon = exampleOps.zero)) ∧
     (∀ env2 : PostEnv,
       handlerPost exampleOps reqBadLon env2 =
         handlerPost exampleOps { reqBadLon with form := ("lon", "0") :: reqBadLon.form } env2) ∧
     (∀ senv2 : SearchEnv F64,
       handlerSearch exampleOps queryMissingLon senv2 =
         handlerSearch exampleOps (("lon", "0") :: queryMissingLon) senv2)) :=
  ⟨handlers_discard_syntax_error exampleOps "lat" (Or.inl rfl) (by decide)
      exampleOps_syntax_zero reqMissingLat envAllOk [1, 2, 3] gcsOpsExample "https://storage/id-1"
      queryBadLat searchEnvTwoHits [hitFiltered, hitClean] (JSON.array [hitCleanJSON]) "0"
      (Or.inl (by decide)) (Or.inr (by decide)) rfl rfl ⟨rfl, rfl⟩ ⟨rfl, rfl⟩ rfl rfl rfl rfl,
   handlers_discard_syntax_error exampleOps "lon" (Or.inr rfl) (by decide)
      exampleOps_syntax_zero reqBadLon envAllOk [1, 2, 3] gcsOpsExample "https://storage/id-1"
      queryMissingLon searchEnvTwoHits [hitFiltered, hitClean] (JSON.array [hitCleanJSON]) "0"
      (Or.inr (by decide)) (Or.inl (by decide)) rfl rfl ⟨rfl, rfl⟩ ⟨rfl, rfl⟩ rfl rfl rfl rfl⟩

end Around
